import Mathlib

/-!
Verification of the HawkDB connection/query/export engine (src/hawkdb.py)
against its natural-language specification.  Each Python component is given
a shallow embedding: pure formatting code becomes Lean functions on an
explicit value type, the stateful `DatabaseConnection` becomes explicit
state passing over a `Session` record with the MySQL driver represented by
an oracle, and the `configparser`-backed `ConnectionManager` becomes
explicit read/merge/write passes over a structured configuration value
together with the persisted file content.
-/

namespace HawkDB

/-! ### DataExporter.to_sql_insert (src/hawkdb.py lines 109-129) -/

/-- The single-quote character (written via its code point to keep the
source text free of quote literals). -/
def sq : Char := Char.ofNat 39

/-- The single-quote character as a one-character string. -/
def sqS : String := String.mk [sq]

/-- One step of the quote-escaping pass: a single quote becomes two single
quotes, every other character is kept as is. -/
def escStep (c : Char) (acc : List Char) : List Char :=
  if c = sq then sq :: sq :: acc else c :: acc

/-- Embedding of `value.replace("'", "''")`.  Since the pattern is a single
character, Python's `str.replace` is exactly a character-by-character
substitution. -/
def escape_single_quotes (s : String) : String :=
  String.mk (s.data.foldr escStep [])

/-- Zero-pad a number to two digits, as `strftime` does for
`%m %d %H %M %S`. -/
def pad2 (n : Nat) : String :=
  if n < 10 then ("0") ++ Nat.repr n else Nat.repr n

/-- Zero-pad a number to four digits, as `strftime` renders `%Y` for the
year range CPython's `datetime` admits. -/
def pad4 (n : Nat) : String :=
  if n < 10 then ("000") ++ Nat.repr n
  else if n < 100 then ("00") ++ Nat.repr n
  else if n < 1000 then ("0") ++ Nat.repr n
  else Nat.repr n

/-- The result-set cell values distinguished by the `isinstance` chain of
`to_sql_insert`: `None`, `str`, `datetime.datetime`, `datetime.date`
(exactly in that order in the source; `datetime` is tested before `date`),
and the `else` branch (`str(value)`) for everything else, of which the
common concrete cases `int` and `bool` are embedded directly and the rest
carry their raw textual representation. -/
inductive PyValue where
  | none
  | str (s : String)
  | datetime (year month day hour minute second : Nat)
  | date (year month day : Nat)
  | int (n : Int)
  | bool (b : Bool)
  | other (raw : String)
deriving DecidableEq

/-- The body of the per-value branch of `to_sql_insert` (lines 115-125). -/
def format_value : PyValue → String
  | PyValue.none => ("NULL")
  | PyValue.str s => sqS ++ escape_single_quotes s ++ sqS
  | PyValue.datetime y mo d hh mi ss =>
      sqS ++ (pad4 y ++ ("-") ++ pad2 mo ++ ("-") ++ pad2 d ++ (" ")
        ++ pad2 hh ++ (":") ++ pad2 mi ++ (":") ++ pad2 ss) ++ sqS
  | PyValue.date y mo d =>
      sqS ++ (pad4 y ++ ("-") ++ pad2 mo ++ ("-") ++ pad2 d) ++ sqS
  | PyValue.int n => toString n
  | PyValue.bool b => if b then ("True") else ("False")
  | PyValue.other raw => raw

/-- Embedding of `DataExporter.to_sql_insert`: the full text written to the
output file.  The Python loop writes one `INSERT` statement per record; the
accumulating `foldl` mirrors the sequence of `f.write` calls. -/
def to_sql_insert (data : List (List PyValue)) (columns : List String)
    (table_name : String) : String :=
  let columns_str := String.intercalate (", ") columns
  data.foldl
    (fun acc record =>
      let values_str := String.intercalate (", ") (record.map format_value)
      acc ++ (("INSERT INTO ") ++ table_name ++ (" (") ++ columns_str
        ++ (") VALUES (") ++ values_str ++ (");") ++ ("\n")))
    ("")

/-! ### String helper lemmas -/

theorem hawk_data_append (a b : String) : (a ++ b).data = a.data ++ b.data := by
  cases a
  cases b
  rfl

theorem hawk_string_eq_of_data (a b : String) (h : a.data = b.data) : a = b := by
  cases a
  cases b
  exact congrArg String.mk h

theorem hawk_foldr_escStep (l X : List Char) :
    l.foldr escStep X = l.foldr escStep [] ++ X := by
  induction l with
  | nil => rfl
  | cons c rest ih =>
      simp only [List.foldr_cons, ih, escStep]
      by_cases hc : c = sq
      · simp [hc]
      · simp [hc]

theorem hawk_escape_no_quote (l : List Char) (h : sq ∉ l) :
    l.foldr escStep [] = l := by
  induction l with
  | nil => rfl
  | cons c rest ih =>
      have hc : c ≠ sq := by
        intro hcc
        exact h (hcc ▸ List.mem_cons_self c rest)
      have hr : sq ∉ rest := fun hm => h (List.mem_cons_of_mem c hm)
      simp [escStep, hc, ih hr]

theorem hawk_foldl_append_join {α : Type} (g : α → String) :
    ∀ (l : List α) (init : String),
      l.foldl (fun acc x => acc ++ g x) init = init ++ String.join (l.map g) := by
  intro l
  induction l with
  | nil =>
      intro init
      apply hawk_string_eq_of_data
      simp [hawk_data_append, String.join]
  | cons x rest ih =>
      intro init
      simp only [List.foldl_cons, List.map_cons, ih]
      apply hawk_string_eq_of_data
      have hjoin : String.join (g x :: rest.map g)
          = g x ++ String.join (rest.map g) := by
        apply hawk_string_eq_of_data
        simp only [String.join, List.foldl_cons, hawk_data_append]
        have := ih (g x)
        calc ((g x :: rest.map g).foldl (fun r s => r ++ s) (("") : String)).data
            = ((rest.map g).foldl (fun r s => r ++ s) (("") ++ g x)).data := by
              simp
          _ = _ := by
              have h2 : ∀ (ls : List String) (i : String),
                  ls.foldl (fun r s => r ++ s) i
                    = i ++ ls.foldl (fun r s => r ++ s) ("") := by
                intro ls
                induction ls with
                | nil =>
                    intro i
                    apply hawk_string_eq_of_data
                    simp [hawk_data_append]
                | cons y ys ihy =>
                    intro i
                    simp only [List.foldl_cons]
                    rw [ihy (i ++ y), ihy (("") ++ y)]
                    apply hawk_string_eq_of_data
                    simp [hawk_data_append]
              rw [h2 (rest.map g) (("") ++ g x)]
              simp [hawk_data_append]
      rw [hjoin]
      simp [hawk_data_append]

theorem hawk_mk_data (s : String) : String.mk s.data = s := by
  cases s
  rfl

theorem hawk_empty_append (s : String) : ("") ++ s = s := by
  cases s
  rfl

theorem hawk_escape_append_quote (a b : String) :
    escape_single_quotes (a ++ sqS ++ b)
      = escape_single_quotes a ++ (sqS ++ sqS) ++ escape_single_quotes b := by
  apply hawk_string_eq_of_data
  simp only [escape_single_quotes, hawk_data_append, sqS]
  rw [List.foldr_append, List.foldr_append]
  simp only [List.foldr_cons, List.foldr_nil]
  rw [hawk_foldr_escStep]
  simp [escStep]

/-- Claim C1: `to_sql_insert` renders each value by its type — `None` as
unquoted `NULL`; every string single-quoted with each embedded single quote
doubled and no other escaping applied (a string without quotes, backslashes
included, is emitted verbatim between the quotes); `datetime` values
single-quoted as `YYYY-MM-DD HH:MM:SS`; `date` values single-quoted as
`YYYY-MM-DD`; every other value as its plain textual representation,
unquoted; and the exported file is one `INSERT INTO t (cols) VALUES (vals);`
line per record, in record order. -/
theorem hawk_c1_sql_rendering :
    (format_value PyValue.none = ("NULL"))
    ∧ (∀ s, format_value (PyValue.str s) = sqS ++ escape_single_quotes s ++ sqS)
    ∧ (∀ a b, escape_single_quotes (a ++ sqS ++ b)
        = escape_single_quotes a ++ (sqS ++ sqS) ++ escape_single_quotes b)
    ∧ (∀ s : String, sq ∉ s.data → escape_single_quotes s = s)
    ∧ (∀ y mo d hh mi ss, format_value (PyValue.datetime y mo d hh mi ss)
        = sqS ++ (pad4 y ++ ("-") ++ pad2 mo ++ ("-") ++ pad2 d ++ (" ")
            ++ pad2 hh ++ (":") ++ pad2 mi ++ (":") ++ pad2 ss) ++ sqS)
    ∧ (∀ y mo d, format_value (PyValue.date y mo d)
        = sqS ++ (pad4 y ++ ("-") ++ pad2 mo ++ ("-") ++ pad2 d) ++ sqS)
    ∧ (∀ n : Int, format_value (PyValue.int n) = toString n)
    ∧ (format_value (PyValue.bool true) = ("True")
        ∧ format_value (PyValue.bool false) = ("False"))
    ∧ (∀ raw, format_value (PyValue.other raw) = raw)
    ∧ (∀ data cols t, to_sql_insert data cols t
        = String.join (data.map (fun record =>
            ("INSERT INTO ") ++ t ++ (" (") ++ String.intercalate (", ") cols
              ++ (") VALUES (")
              ++ String.intercalate (", ") (record.map format_value)
              ++ (");") ++ ("\n")))) := by
  refine ⟨rfl, fun s => rfl, hawk_escape_append_quote, ?_, fun y mo d hh mi ss => rfl,
    fun y mo d => rfl, fun n => rfl, ⟨rfl, rfl⟩, fun raw => rfl, ?_⟩
  · intro s hs
    unfold escape_single_quotes
    rw [hawk_escape_no_quote s.data hs, hawk_mk_data]
  · intro data cols t
    unfold to_sql_insert
    rw [hawk_foldl_append_join
      (fun record =>
        ("INSERT INTO ") ++ t ++ (" (") ++ String.intercalate (", ") cols
          ++ (") VALUES (")
          ++ String.intercalate (", ") (record.map format_value)
          ++ (");") ++ ("\n")) data ("")]
    rw [hawk_empty_append]

/-- Claim C1 witness: concrete evaluations — a backslash-containing string
passes through the escaper untouched, and the canonical `O'Brien` example
renders with its quote doubled inside surrounding quotes. -/
theorem hawk_c1_witness :
    (sq ∉ (("a\\b") : String).data)
    ∧ escape_single_quotes ("a\\b") = ("a\\b")
    ∧ format_value (PyValue.str (("O") ++ sqS ++ ("Brien")))
        = sqS ++ ("O") ++ (sqS ++ sqS) ++ ("Brien") ++ sqS := by
  refine ⟨by decide, hawk_c1_sql_rendering.2.2.2.1 ("a\\b") (by decide), by decide⟩

/-! ### DatabaseConnection (src/hawkdb.py lines 26-91)

The MySQL driver is represented by an oracle: `attempt b` is the outcome of
`mysql.connector.connect(**connection_config)` where `b` records whether
`ssl_disabled = True` was added to the config (the retry), and
`version_query c` is the outcome of running
`cursor.execute("SELECT VERSION()"); cursor.fetchone()` on the freshly
opened connection `c` (the liveness verification).  Connections and
cursors are identified by numeric handles. -/

/-- A driver-level error (`mysql.connector.Error`), carrying the `errno`. -/
inductive DriverErr where
  | err (code : Nat)
deriving DecidableEq

/-- The driver oracle for one `connect` call. -/
structure Driver where
  attempt : Bool → Except DriverErr Nat
  version_query : Nat → Except DriverErr Unit

/-- The mutable state of a `DatabaseConnection` object. -/
structure Session where
  connection : Option Nat
  cursor : Option Nat
  is_connected : Bool
deriving DecidableEq

/-- The spec's `SessionState` enum. -/
inductive SessionState where
  | Disconnected
  | Connected
deriving DecidableEq

/-- The state a `DatabaseConnection` exposes: `Connected` exactly when the
`is_connected` flag is set. -/
def session_state (s : Session) : SessionState :=
  if s.is_connected then SessionState.Connected else SessionState.Disconnected

/-- Embedding of `DatabaseConnection.disconnect` (lines 63-69): a no-op when
`self.connection` is falsy, otherwise close and clear all three fields. -/
def disconnect (s : Session) : Session :=
  match s.connection with
  | some _ => ⟨Option.none, Option.none, false⟩
  | Option.none => s

/-- The outcome of one `connect` call: the returned value or raised error,
the state of the object afterwards, and the list of driver attempts made
(each entry records whether `ssl_disabled` was set for that attempt). -/
structure ConnectResult where
  result : Except DriverErr Bool
  session : Session
  attempts : List Bool

/-- The tail of `connect` after a driver connection has been obtained
(lines 56-61): create the cursor, run the `SELECT VERSION()` liveness
check, and only then set `is_connected`.  A failure of the liveness check
propagates with `connection`/`cursor` already assigned but `is_connected`
still carrying its previous value. -/
def connect_finish (s0 : Session) (d : Driver) (c : Nat) (tr : List Bool) :
    ConnectResult :=
  match d.version_query c with
  | Except.ok _ => ⟨Except.ok true, ⟨some c, some c, true⟩, tr⟩
  | Except.error e => ⟨Except.error e, ⟨some c, some c, s0.is_connected⟩, tr⟩

/-- Embedding of `DatabaseConnection.connect` (lines 34-61): disconnect
first if already connected, try the secure configuration, on any driver
error retry once with `ssl_disabled = True`, let a failure of that second
attempt propagate, then verify liveness and set `is_connected`. -/
def connect (s : Session) (d : Driver) : ConnectResult :=
  let s0 := if s.is_connected then disconnect s else s
  match d.attempt false with
  | Except.ok c => connect_finish s0 d c [false]
  | Except.error _ =>
      match d.attempt true with
      | Except.ok c => connect_finish s0 d c [false, true]
      | Except.error e => ⟨Except.error e, s0, [false, true]⟩

/-- Errors raised by `execute_query`. -/
inductive QueryError where
  | notConnected
  | driver (e : DriverErr)
deriving DecidableEq

/-- Embedding of `DatabaseConnection.execute_query` (lines 71-82): raise
the not-connected `RuntimeError` when the flag is down, otherwise return
the driver's `(column_names, data)` outcome, where `run` is the oracle for
`cursor.execute(query); cursor.description; cursor.fetchall()`. -/
def execute_query (s : Session)
    (run : Except DriverErr (List String × List (List PyValue))) :
    Except QueryError (List String × List (List PyValue)) :=
  if s.is_connected then
    match run with
    | Except.ok r => Except.ok r
    | Except.error e => Except.error (QueryError.driver e)
  else Except.error QueryError.notConnected

/-- Embedding of `DatabaseConnection.get_server_info` (lines 84-91):
`None` when not connected; otherwise `version[0] if version else
"Desconhecida"` where `fetch` is the oracle for the `SELECT VERSION()`
fetch (`Option.none` models `fetchone()` returning no row, `some []` an
empty tuple — both falsy in Python — and `some (v :: rest)` a row). -/
def get_server_info (s : Session) (fetch : Option (List String)) :
    Option String :=
  if s.is_connected then
    match fetch with
    | some (v :: _) => some v
    | some [] => some ("Desconhecida")
    | Option.none => some ("Desconhecida")
  else Option.none

/-- The representation invariant every reachable `DatabaseConnection`
state satisfies: the `is_connected` flag is only up while a connection
object is held. -/
def SessionWF (s : Session) : Prop :=
  s.is_connected = true → s.connection ≠ Option.none

theorem hawk_disconnect_flag (s : Session) (h : s.is_connected = false) :
    (disconnect s).is_connected = false := by
  cases hco : s.connection with
  | none => simp [disconnect, hco, h]
  | some c => simp [disconnect, hco]

theorem hawk_pre_state_flag (s : Session) (hwf : SessionWF s) :
    (if s.is_connected then disconnect s else s).is_connected = false := by
  cases hc : s.is_connected with
  | true =>
      have hcon := hwf hc
      cases hco : s.connection with
      | none => exact absurd hco hcon
      | some c => simp [hc, disconnect, hco]
  | false => simp [hc]

/-- Claim C2: every `connect` call tries the secure configuration first;
if and only if that first attempt fails with any driver error, exactly one
retry with `ssl_disabled = True` is made (unconditionally in the error
value, wrong-credentials failures included), the second failure is the one
surfaced, and no third attempt ever occurs. -/
theorem hawk_c2_retry (s : Session) (d : Driver) :
    ((connect s d).attempts.head? = some false)
    ∧ ((connect s d).attempts.length ≤ 2)
    ∧ (∀ c, d.attempt false = Except.ok c → (connect s d).attempts = [false])
    ∧ (∀ e, d.attempt false = Except.error e →
        (connect s d).attempts = [false, true]
        ∧ (∀ e2, d.attempt true = Except.error e2 →
            (connect s d).result = Except.error e2)) := by
  cases h1 : d.attempt false with
  | ok c =>
      cases h2 : d.version_query c with
      | ok u => simp [connect, connect_finish, h1, h2]
      | error e2 => simp [connect, connect_finish, h1, h2]
  | error e1 =>
      cases h2 : d.attempt true with
      | ok c =>
          cases h3 : d.version_query c with
          | ok u => simp [connect, connect_finish, h1, h2, h3]
          | error e4 => simp [connect, connect_finish, h1, h2, h3]
      | error e2 => simp [connect, h1, h2]

/-- Claim C2 witness: with a driver failing the secure attempt with the
wrong-credentials code 1045 and the insecure attempt with code 2026,
`connect` makes exactly the attempts `[secure, insecure]` and surfaces the
second failure. -/
theorem hawk_c2_witness :
    (connect ⟨Option.none, Option.none, false⟩
        ⟨fun b => if b then Except.error (DriverErr.err 2026)
          else Except.error (DriverErr.err 1045),
          fun _ => Except.ok ()⟩).attempts = [false, true]
    ∧ (connect ⟨Option.none, Option.none, false⟩
        ⟨fun b => if b then Except.error (DriverErr.err 2026)
          else Except.error (DriverErr.err 1045),
          fun _ => Except.ok ()⟩).result = Except.error (DriverErr.err 2026) := by
  have h := hawk_c2_retry ⟨Option.none, Option.none, false⟩
    ⟨fun b => if b then Except.error (DriverErr.err 2026)
      else Except.error (DriverErr.err 1045), fun _ => Except.ok ()⟩
  exact ⟨(h.2.2.2 (DriverErr.err 1045) rfl).1,
    (h.2.2.2 (DriverErr.err 1045) rfl).2 (DriverErr.err 2026) rfl⟩

/-- Claim C4: whenever `connect` fails — in particular when both driver
attempts fail, and also when the handshake succeeds but the
`SELECT VERSION()` liveness verification fails — the session state exposed
to the caller remains `Disconnected`. -/
theorem hawk_c4_connect_failure_disconnected (s : Session) (d : Driver)
    (hwf : SessionWF s) :
    (∀ e, (connect s d).result = Except.error e →
        session_state (connect s d).session = SessionState.Disconnected)
    ∧ (∀ c e, d.attempt false = Except.ok c →
        d.version_query c = Except.error e →
        (connect s d).result = Except.error e
        ∧ session_state (connect s d).session = SessionState.Disconnected) := by
  have h0 := hawk_pre_state_flag s hwf
  constructor
  · intro e he
    cases h1 : d.attempt false with
    | ok c =>
        cases h2 : d.version_query c with
        | ok u => simp [connect, connect_finish, h1, h2] at he
        | error e2 => simp [connect, connect_finish, h1, h2, session_state, h0]
    | error e1 =>
        cases h2 : d.attempt true with
        | ok c =>
            cases h3 : d.version_query c with
            | ok u => simp [connect, connect_finish, h1, h2, h3] at he
            | error e4 =>
                simp [connect, connect_finish, h1, h2, h3, session_state, h0]
        | error e2 => simp [connect, h1, h2, session_state, h0]
  · intro c e h1 h2
    simp [connect, connect_finish, h1, h2, session_state, h0]

/-- Claim C4 witness: from the fresh disconnected state, a driver whose
handshake succeeds but whose liveness verification fails makes `connect`
surface that failure with the state still `Disconnected`. -/
theorem hawk_c4_witness :
    SessionWF ⟨Option.none, Option.none, false⟩
    ∧ ((connect ⟨Option.none, Option.none, false⟩
          ⟨fun _ => Except.ok 7,
            fun _ => Except.error (DriverErr.err 2013)⟩).result
        = Except.error (DriverErr.err 2013))
    ∧ (session_state (connect ⟨Option.none, Option.none, false⟩
          ⟨fun _ => Except.ok 7,
            fun _ => Except.error (DriverErr.err 2013)⟩).session
        = SessionState.Disconnected) := by
  have hwf : SessionWF ⟨Option.none, Option.none, false⟩ := by
    intro h
    simp at h
  have h := (hawk_c4_connect_failure_disconnected ⟨Option.none, Option.none, false⟩
    ⟨fun _ => Except.ok 7, fun _ => Except.error (DriverErr.err 2013)⟩ hwf).2
    7 (DriverErr.err 2013) rfl rfl
  exact ⟨hwf, h.1, h.2⟩

/-- Claim C8: `execute_query` fails with the not-connected error whenever
the session state is not `Connected`; in particular `connect` immediately
followed by `disconnect` always leaves a state in which `execute_query`
fails with the not-connected error. -/
theorem hawk_c8_not_connected :
    (∀ (s : Session) run, session_state s = SessionState.Disconnected →
        execute_query s run = Except.error QueryError.notConnected)
    ∧ (∀ (s : Session) (d : Driver) run, SessionWF s →
        execute_query (disconnect (connect s d).session) run
          = Except.error QueryError.notConnected) := by
  constructor
  · intro s run hs
    have hflag : s.is_connected = false := by
      cases hc : s.is_connected with
      | true => simp [session_state, hc] at hs
      | false => rfl
    simp [execute_query, hflag]
  · intro s d run hwf
    have h0 := hawk_pre_state_flag s hwf
    have hflag : (disconnect (connect s d).session).is_connected = false := by
      cases h1 : d.attempt false with
      | ok c =>
          cases h2 : d.version_query c with
          | ok u => simp [connect, connect_finish, h1, h2, disconnect]
          | error e => simp [connect, connect_finish, h1, h2, disconnect]
      | error e1 =>
          cases h2 : d.attempt true with
          | ok c =>
              cases h3 : d.version_query c with
              | ok u => simp [connect, connect_finish, h1, h2, h3, disconnect]
              | error e => simp [connect, connect_finish, h1, h2, h3, disconnect]
          | error e2 =>
              simp only [connect, h1, h2]
              exact hawk_disconnect_flag _ h0
    simp [execute_query, hflag]

/-- Claim C8 witness: on the fresh disconnected state `execute_query`
fails with the not-connected error, and it still does so after a
successful `connect` immediately followed by `disconnect`. -/
theorem hawk_c8_witness :
    execute_query ⟨Option.none, Option.none, false⟩ (Except.ok ([], []))
      = Except.error QueryError.notConnected
    ∧ execute_query
        (disconnect (connect ⟨Option.none, Option.none, false⟩
          ⟨fun _ => Except.ok 5, fun _ => Except.ok ()⟩).session)
        (Except.ok ([], []))
      = Except.error QueryError.notConnected := by
  exact ⟨hawk_c8_not_connected.1 ⟨Option.none, Option.none, false⟩ (Except.ok ([], [])) rfl,
    hawk_c8_not_connected.2 ⟨Option.none, Option.none, false⟩
      ⟨fun _ => Except.ok 5, fun _ => Except.ok ()⟩ (Except.ok ([], []))
      (by intro h; simp at h)⟩

/-- Claim C9: `get_server_info` returns `None` exactly when the session is
`Disconnected`; when `Connected` it returns the server-reported version
string, defaulting to the literal unknown marker (the source's string
`Desconhecida`) whenever the version fetch comes back empty. -/
theorem hawk_c9_server_info (s : Session) (fetch : Option (List String)) :
    (get_server_info s fetch = Option.none
      ↔ session_state s = SessionState.Disconnected)
    ∧ (∀ v rest, session_state s = SessionState.Connected →
        fetch = some (v :: rest) → get_server_info s fetch = some v)
    ∧ (session_state s = SessionState.Connected →
        (fetch = Option.none ∨ fetch = some []) →
        get_server_info s fetch = some ("Desconhecida")) := by
  cases hc : s.is_connected with
  | true =>
      cases fetch with
      | none => simp [get_server_info, session_state, hc]
      | some row =>
          cases row with
          | nil => simp [get_server_info, session_state, hc]
          | cons v rest => simp [get_server_info, session_state, hc]
  | false => simp [get_server_info, session_state, hc]

/-- Claim C9 witness: concrete evaluations — on a connected session a
fetched version row is returned as is, an empty fetch yields the unknown
marker, and a disconnected session yields `None`. -/
theorem hawk_c9_witness :
    get_server_info ⟨some 1, some 1, true⟩ (some (("8.0.36") :: []))
      = some ("8.0.36")
    ∧ get_server_info ⟨some 1, some 1, true⟩ Option.none
      = some ("Desconhecida")
    ∧ get_server_info ⟨Option.none, Option.none, false⟩
        (some (("8.0.36") :: [])) = Option.none := by
  refine ⟨(hawk_c9_server_info ⟨some 1, some 1, true⟩ _).2.1 ("8.0.36") [] rfl rfl,
    (hawk_c9_server_info ⟨some 1, some 1, true⟩ _).2.2 rfl (Or.inl rfl), ?_⟩
  exact (hawk_c9_server_info ⟨Option.none, Option.none, false⟩
    (some (("8.0.36") :: []))).1.mpr rfl

/-! ### HawkDBApp._parse_host_port (src/hawkdb.py lines 357-362)

The port segment is converted with Python's `int()`, modelled for ASCII
inputs: surrounding whitespace is ignored, an optional single sign is
allowed, and the body must be decimal digits in which an underscore may
appear only between two digits. -/

/-- Whether a character list is a valid `int()` digit body after its first
character has been checked to be a digit: digits, with each underscore
followed (and, by construction, preceded) by a digit. -/
def py_digit_tail : List Char → Bool
  | [] => true
  | c :: rest =>
      if c.isDigit then py_digit_tail rest
      else if c = ('_') then
        match rest with
        | [] => false
        | d :: r2 => d.isDigit && py_digit_tail r2
      else false

/-- Whether a character list is a valid unsigned `int()` body: nonempty,
starting with a digit, with underscores only between digits. -/
def is_py_int_body (l : List Char) : Bool :=
  match l with
  | [] => false
  | c :: _ => c.isDigit && py_digit_tail l

/-- Decimal value of a digit body, skipping the underscore separators. -/
def digits_to_nat (l : List Char) : Nat :=
  l.foldl (fun acc c => if c.isDigit then acc * 10 + (c.toNat - 48) else acc) 0

/-- Model of Python `int(str)` on an already-stripped character list. -/
def py_int_core (l : List Char) : Option Int :=
  match l with
  | [] => Option.none
  | c :: rest =>
      if c = ('+') then
        (if is_py_int_body rest then some ((digits_to_nat rest : Nat) : Int)
         else Option.none)
      else if c = ('-') then
        (if is_py_int_body rest then some (-((digits_to_nat rest : Nat) : Int))
         else Option.none)
      else
        (if is_py_int_body l then some ((digits_to_nat l : Nat) : Int)
         else Option.none)

/-- Model of Python `str.strip()` on a character list: remove leading and
trailing whitespace. -/
def py_strip_chars (l : List Char) : List Char :=
  ((l.dropWhile Char.isWhitespace).reverse.dropWhile Char.isWhitespace).reverse

/-- Model of Python `str.strip()` (ASCII whitespace). -/
def py_strip (s : String) : String :=
  String.mk (py_strip_chars s.data)

/-- Model of Python `int(str)`: strip surrounding whitespace, then parse.
The source applies `.strip()` before calling `int()`; since `int()` itself
ignores surrounding whitespace the composition equals `py_int`. -/
def py_int (s : String) : Option Int :=
  py_int_core (py_strip s).data

/-- Split a character list at its last colon (`str.rsplit(":", 1)` when a
colon is present): the part before and the part after the last colon. -/
def rsplit_colon (l : List Char) : List Char × List Char :=
  (((l.reverse.dropWhile (fun c => !(decide (c = (':'))))).tail).reverse,
    (l.reverse.takeWhile (fun c => !(decide (c = (':'))))).reverse)

/-- Embedding of `HawkDBApp._parse_host_port`: with a colon present, split
at the last colon, strip both parts and convert the port with `int()`,
turning a conversion failure into the parse `ValueError`; with no colon,
return the stripped input with the default port 3306. -/
def parse_host_port (s : String) : Except String (String × Int) :=
  if s.data.any (fun c => decide (c = (':'))) then
    let parts := rsplit_colon s.data
    match py_int (String.mk parts.2) with
    | some n => Except.ok (py_strip (String.mk parts.1), n)
    | Option.none => Except.error ("Formato inválido. Use: host ou host:porta")
  else Except.ok (py_strip s, 3306)

theorem hawk_takeWhile_all {p : Char → Bool} :
    ∀ (l1 l2 : List Char), (∀ c ∈ l1, p c = true) →
      (l1 ++ l2).takeWhile p = l1 ++ l2.takeWhile p := by
  intro l1
  induction l1 with
  | nil => intro l2 h; rfl
  | cons c rest ih =>
      intro l2 h
      have hc : p c = true := h c (List.mem_cons_self c rest)
      simp only [List.cons_append, List.takeWhile_cons, hc, if_true]
      rw [ih l2 (fun x hx => h x (List.mem_cons_of_mem c hx))]

theorem hawk_dropWhile_all {p : Char → Bool} :
    ∀ (l1 l2 : List Char), (∀ c ∈ l1, p c = true) →
      (l1 ++ l2).dropWhile p = l2.dropWhile p := by
  intro l1
  induction l1 with
  | nil => intro l2 h; rfl
  | cons c rest ih =>
      intro l2 h
      have hc : p c = true := h c (List.mem_cons_self c rest)
      simp only [List.cons_append, List.dropWhile_cons, hc, if_true]
      exact ih l2 (fun x hx => h x (List.mem_cons_of_mem c hx))

theorem hawk_rsplit_appended (a b : List Char)
    (hb : (':') ∉ b) : rsplit_colon (a ++ (':') :: b) = (a, b) := by
  unfold rsplit_colon
  have hrev : (a ++ (':') :: b).reverse = b.reverse ++ (':') :: a.reverse := by
    simp
  have hball : ∀ c ∈ b.reverse, (!(decide (c = (':')))) = true := by
    intro c hcmem
    have : c ∈ b := List.mem_reverse.mp hcmem
    have hne : ¬(c = (':')) := fun hcc => hb (hcc ▸ this)
    simp [hne]
  rw [hrev, hawk_dropWhile_all b.reverse ((':') :: a.reverse) hball,
    hawk_takeWhile_all b.reverse ((':') :: a.reverse) hball]
  simp [List.dropWhile_cons, List.takeWhile_cons]

/-- Claim C3: an input of the form `host:port` whose final port segment is
a valid integer parses to exactly `(host, port)`; an input with no colon
parses to `(host, 3306)`; and an input whose final port segment fails
integer conversion produces the parse error instead of a silent default. -/
theorem hawk_c3_parse_host_port :
    (∀ s : String, s.data.any (fun c => decide (c = (':'))) = false →
        py_strip s = s → parse_host_port s = Except.ok (s, 3306))
    ∧ (∀ (h ps : String) (n : Int), py_strip h = h →
        ps.data.any (fun c => decide (c = (':'))) = false →
        py_int ps = some n →
        parse_host_port (h ++ (":") ++ ps) = Except.ok (h, n))
    ∧ (∀ h ps : String,
        ps.data.any (fun c => decide (c = (':'))) = false →
        py_int ps = Option.none →
        parse_host_port (h ++ (":") ++ ps)
          = Except.error ("Formato inválido. Use: host ou host:porta")) := by
  have hdata : ∀ h ps : String,
      (h ++ (":") ++ ps).data = h.data ++ (':') :: ps.data := by
    intro h ps
    rw [hawk_data_append, hawk_data_append, List.append_assoc]
    rfl
  have hnotin : ∀ ps : String,
      ps.data.any (fun c => decide (c = (':'))) = false → (':') ∉ ps.data := by
    intro ps hany hmem
    have : ps.data.any (fun c => decide (c = (':'))) = true :=
      List.any_eq_true.mpr ⟨(':'), hmem, by simp⟩
    rw [hany] at this
    exact Bool.false_ne_true this
  have hcond : ∀ h ps : String,
      (h ++ (":") ++ ps).data.any (fun c => decide (c = (':'))) = true := by
    intro h ps
    rw [hdata]
    exact List.any_eq_true.mpr ⟨(':'), by simp, by simp⟩
  have hsplit : ∀ h ps : String,
      ps.data.any (fun c => decide (c = (':'))) = false →
      rsplit_colon ((h ++ (":") ++ ps).data) = (h.data, ps.data) := by
    intro h ps hany
    rw [hdata]
    exact hawk_rsplit_appended h.data ps.data (hnotin ps hany)
  refine ⟨?_, ?_, ?_⟩
  · intro s hany htrim
    rw [parse_host_port, if_neg (by rw [hany]; exact Bool.false_ne_true), htrim]
  · intro h ps n htrim hany hpy
    rw [parse_host_port, if_pos (hcond h ps)]
    simp only [hsplit h ps hany, hawk_mk_data, hpy, htrim]
  · intro h ps hany hpy
    rw [parse_host_port, if_pos (hcond h ps)]
    simp only [hsplit h ps hany, hawk_mk_data, hpy]

/-- Claim C3 witness: concrete evaluations — `db.host:3307` parses to the
pair, `localhost` gets the default port 3306, and a non-numeric port
segment produces the parse error. -/
theorem hawk_c3_witness :
    parse_host_port (("db.host") ++ (":") ++ ("3307"))
      = Except.ok (("db.host"), 3307)
    ∧ parse_host_port ("localhost") = Except.ok (("localhost"), 3306)
    ∧ parse_host_port (("h") ++ (":") ++ ("abc"))
      = Except.error ("Formato inválido. Use: host ou host:porta") := by
  exact ⟨hawk_c3_parse_host_port.2.1 ("db.host") ("3307") 3307
      (by decide) (by decide) (by decide),
    hawk_c3_parse_host_port.1 ("localhost") (by decide) (by decide),
    hawk_c3_parse_host_port.2.2 ("h") ("abc") (by decide) (by decide)⟩

/-! ### ConnectionManager (src/hawkdb.py lines 132-177)

The `configparser.ConfigParser` state is embedded structurally: the
defaults of the reserved `DEFAULT` section, and the ordered list of named
sections with their ordered key/value items.  The persisted INI file is
modelled as the structured configuration it parses to (an absent file is
`Option.none`); `config.write` followed by `config.read` round-trips this
structure.  The `World` couples the manager's in-memory parser state with
the persisted file, so that read-modify-write behaviour — and its absence —
is observable. -/

/-- A `configparser` state: the `DEFAULT` section's items and the ordered
named sections. -/
structure Config where
  defaults : List (String × String)
  sects : List (String × List (String × String))
deriving DecidableEq

/-- The empty parser state (`configparser.ConfigParser()`). -/
def emptyConfig : Config := ⟨[], []⟩

/-- `dict.update`-style merge of key/value lists: existing keys are
overwritten in place, new keys appended in order. -/
def updateAll (base upd : List (String × String)) : List (String × String) :=
  upd.foldl
    (fun acc kv =>
      if acc.any (fun kv2 => decide (kv2.1 = kv.1)) then
        acc.map (fun kv2 => if decide (kv2.1 = kv.1) then (kv2.1, kv.2) else kv2)
      else acc ++ [kv])
    base

/-- Errors raised by the `configparser` layer: the `ValueError` of
`BasicInterpolation.before_set` on invalid interpolation syntax, and the
interpolation errors of `before_get`. -/
inductive IniError where
  | valueError
  | interpolationSyntaxError
  | interpolationMissingOptionError
  | interpolationDepthError
deriving DecidableEq

/-- `value.replace("%%", "")`, the first step of
`BasicInterpolation.before_set`: scan left to right, removing each escaped
percent pair. -/
def strip_pp : List Char → List Char
  | [] => []
  | [c] => [c]
  | c :: c2 :: rest2 =>
      if c = ('%') then
        (if c2 = ('%') then strip_pp rest2 else c :: strip_pp (c2 :: rest2))
      else c :: strip_pp (c2 :: rest2)

/-- `_KEYCRE.sub('', s)`, the second step of `before_set`: remove every
occurrence of a well-formed reference `%(key)s` (`key` nonempty and free
of closing parentheses), scanning left to right.  The fuel argument is the
remaining input length; every step consumes at least one character. -/
def kcre_go : Nat → List Char → List Char
  | 0, _ => []
  | Nat.succ fuel, l =>
    match l with
    | [] => []
    | c :: rest =>
      if c = ('%') then
        match rest with
        | [] => [c]
        | c2 :: rest2 =>
          if c2 = ('(') then
            (let key := rest2.takeWhile (fun x => !(decide (x = (')'))))
             let after := rest2.dropWhile (fun x => !(decide (x = (')'))))
             if key.isEmpty then c :: kcre_go fuel rest
             else
               match after with
               | _ :: a2 :: rest3 =>
                   if a2 = ('s') then kcre_go fuel rest3
                   else c :: kcre_go fuel rest
               | _ => c :: kcre_go fuel rest)
          else c :: kcre_go fuel rest
      else c :: kcre_go fuel rest

/-- `_KEYCRE.sub('', s)` at its natural fuel. -/
def kcre_strip (l : List Char) : List Char := kcre_go l.length l

/-- `BasicInterpolation.before_set` succeeds exactly when, after removing
escaped `%%` pairs and well-formed `%(key)s` references, no percent sign
remains. -/
def before_set_valid (v : String) : Bool :=
  !((kcre_strip (strip_pp v.data)).any (fun c => decide (c = ('%'))))

/-- The loop of `BasicInterpolation._interpolate_some` over one value:
plain characters are copied, `%%` yields `%`, a well-formed `%(key)s`
reference is looked up (key lowercased by `optionxform`) in the
section-over-defaults map and its value substituted — recursively through
`expand` when that value itself contains a percent sign — and any other
use of `%` is an interpolation syntax error.  The fuel argument is the
remaining input length; every step consumes at least one character. -/
def interp_loop (map : List (String × String))
    (expand : List Char → Except IniError (List Char)) :
    Nat → List Char → Except IniError (List Char)
  | 0, _ => Except.ok []
  | Nat.succ fuel, l =>
    match l with
    | [] => Except.ok []
    | c :: rest1 =>
      if c = ('%') then
        match rest1 with
        | [] => Except.error IniError.interpolationSyntaxError
        | c2 :: rest2 =>
          if c2 = ('%') then
            match interp_loop map expand fuel rest2 with
            | Except.ok t => Except.ok (c :: t)
            | Except.error e => Except.error e
          else if c2 = ('(') then
            (let key := rest2.takeWhile (fun x => !(decide (x = (')'))))
             let after := rest2.dropWhile (fun x => !(decide (x = (')'))))
             if key.isEmpty then Except.error IniError.interpolationSyntaxError
             else
               match after with
               | _ :: a2 :: rest3 =>
                 if a2 = ('s') then
                   match map.find? (fun kv =>
                       decide (kv.1 = String.mk (key.map Char.toLower))) with
                   | Option.none =>
                       Except.error IniError.interpolationMissingOptionError
                   | some kv =>
                     if kv.2.data.any (fun x => decide (x = ('%'))) then
                       match expand kv.2.data with
                       | Except.error e => Except.error e
                       | Except.ok ex =>
                         match interp_loop map expand fuel rest3 with
                         | Except.ok t => Except.ok (ex ++ t)
                         | Except.error e => Except.error e
                     else
                       match interp_loop map expand fuel rest3 with
                       | Except.ok t => Except.ok (kv.2.data ++ t)
                       | Except.error e => Except.error e
                 else Except.error IniError.interpolationSyntaxError
               | _ => Except.error IniError.interpolationSyntaxError)
          else Except.error IniError.interpolationSyntaxError
      else
        match interp_loop map expand fuel rest1 with
        | Except.ok t => Except.ok (c :: t)
        | Except.error e => Except.error e

/-- `BasicInterpolation._interpolate_some` with its depth bound: the first
argument is the number of still-allowed recursion levels (Python errors at
entry when `depth > MAX_INTERPOLATION_DEPTH = 10`; the top-level call has
depth 1, hence 10 levels). -/
def interp_outer (map : List (String × String)) :
    Nat → List Char → Except IniError (List Char)
  | 0, _ => Except.error IniError.interpolationDepthError
  | Nat.succ b, l =>
      interp_loop map (fun v => interp_outer map b v) l.length l

/-- `BasicInterpolation.before_get` applied to one stored value. -/
def before_get (map : List (String × String)) (v : String) :
    Except IniError String :=
  match interp_outer map 10 v.data with
  | Except.ok t => Except.ok (String.mk t)
  | Except.error e => Except.error e

/-- Interpolate every value of a `dict(proxy)` item list, in iteration
order, against the section-over-defaults map; the first failure
propagates. -/
def interp_items (map : List (String × String)) :
    List (String × String) → Except IniError (List (String × String))
  | [] => Except.ok []
  | kv :: rest =>
    match before_get map kv.2 with
    | Except.error e => Except.error e
    | Except.ok v2 =>
      match interp_items map rest with
      | Except.error e => Except.error e
      | Except.ok r => Except.ok ((kv.1, v2) :: r)

/-- Where `parser[name] = dict` places a section's items: the `DEFAULT`
name replaces the defaults; an existing section is replaced in place; a
new section is appended. -/
def placeSection (c : Config) (name : String)
    (items : List (String × String)) : Config :=
  if decide (name = ("DEFAULT")) then ⟨items, c.sects⟩
  else if c.sects.any (fun s => decide (s.1 = name)) then
    ⟨c.defaults,
      c.sects.map (fun s => if decide (s.1 = name) then (s.1, items) else s)⟩
  else ⟨c.defaults, c.sects ++ [(name, items)]⟩

/-- `parser[name] = dict` (`__setitem__` followed by `read_dict`): the
target section (or the defaults, for `DEFAULT`) is cleared and its keys
set one by one, each value validated by `before_set`; a validation failure
raises `ValueError` after the preceding keys were already stored, leaving
the valid prefix in place (the source comments that no update is
atomic). -/
def setSectionChecked (c : Config) (name : String)
    (items : List (String × String)) : Except IniError Unit × Config :=
  let kept := items.takeWhile (fun kv => before_set_valid kv.2)
  ((if kept.length = items.length then Except.ok ()
    else Except.error IniError.valueError),
    placeSection c name kept)

/-- `name in parser` (`__contains__`): the `DEFAULT` name is always a
member; otherwise membership of the named sections. -/
def cfgMem (c : Config) (name : String) : Bool :=
  decide (name = ("DEFAULT")) || c.sects.any (fun s => decide (s.1 = name))

/-- `dict(parser[name])`: the defaults overlaid with the section's own
items (`options()` ordering: default keys first, then new section keys),
each value passed through `before_get` interpolation over that same
section-over-defaults map; for the `DEFAULT` name, the defaults
themselves. -/
def sectionDict (c : Config) (name : String) :
    Except IniError (Option (List (String × String))) :=
  if decide (name = ("DEFAULT")) then
    match interp_items c.defaults c.defaults with
    | Except.ok items => Except.ok (some items)
    | Except.error e => Except.error e
  else
    match c.sects.find? (fun s => decide (s.1 = name)) with
    | some s =>
      match interp_items (updateAll c.defaults s.2) (updateAll c.defaults s.2) with
      | Except.ok items => Except.ok (some items)
      | Except.error e => Except.error e
    | Option.none => Except.ok Option.none

/-- `parser.remove_section(name)`: checks membership of `_sections` only —
the `DEFAULT` section never lives there, so removing it is a silent no-op
returning `False`; an existing named section is removed.  No exception is
ever raised on this path. -/
def remove_section (c : Config) (name : String) : Config × Bool :=
  (⟨c.defaults, c.sects.filter (fun s => !(decide (s.1 = name)))⟩,
    c.sects.any (fun s => decide (s.1 = name)))

/-- Merging a section list parsed from a file into the parser's current
sections (`parser.read`): an existing section has its keys updated, a new
section is appended, in file order. -/
def mergeSects (base fromFile : List (String × List (String × String))) :
    List (String × List (String × String)) :=
  fromFile.foldl
    (fun acc sec =>
      if acc.any (fun s => decide (s.1 = sec.1)) then
        acc.map (fun s =>
          if decide (s.1 = sec.1) then (s.1, updateAll s.2 sec.2) else s)
      else acc ++ [sec])
    base

/-- `parser.read(file)`: merge the file's defaults and sections into the
parser state. -/
def configMerge (mem file : Config) : Config :=
  ⟨updateAll mem.defaults file.defaults, mergeSects mem.sects file.sects⟩

/-- The manager's observable state: the persisted file content (absent on
a fresh directory) and the in-memory parser state. -/
structure World where
  file : Option Config
  mem : Config
deriving DecidableEq

/-- `self.config.read(self.config_file)`: reading a missing file is a
silent no-op, otherwise the file is merged into the parser state. -/
def readIn (w : World) : Config :=
  match w.file with
  | Option.none => w.mem
  | some f => configMerge w.mem f

/-- The items of the auto-created example profile. -/
def exampleItems : List (String × String) :=
  [(("host"), ("")), (("user"), ("")), (("password"), (""))]

/-- Embedding of `ConnectionManager.__init__` plus `_ensure_config_exists`
(lines 135-151): a fresh parser; when the file is absent, `DEFAULT` is set
empty, the `Conexao_Exemplo` example section is created and the state is
persisted (both assignments pass `before_set` since every value is the
empty string); an existing file is left alone and, notably, not read. -/
def initManager (file : Option Config) : World :=
  match file with
  | some f => ⟨some f, emptyConfig⟩
  | Option.none =>
      let m := (setSectionChecked
        ((setSectionChecked emptyConfig ("DEFAULT") []).2)
        ("Conexao_Exemplo") exampleItems).2
      ⟨some m, m⟩

/-- Embedding of `ConnectionManager.get_connections` (lines 157-159):
re-read the file, then list the section names other than `DEFAULT`. -/
def get_connections (w : World) : List String × World :=
  let m := readIn w
  ((m.sects.map Prod.fst).filter (fun s => !(decide (s = ("DEFAULT")))),
    ⟨w.file, m⟩)

/-- Embedding of `ConnectionManager.save_connection` (lines 161-163): set
the section on the in-memory state — without re-reading the file — and
persist the whole in-memory state; a `before_set` `ValueError` propagates
before `_save_config` runs, leaving the file untouched and the in-memory
section partially updated. -/
def save_connection (w : World) (name host user password : String) :
    Except IniError Unit × World :=
  let r := setSectionChecked w.mem name
    [(("host"), host), (("user"), user), (("password"), password)]
  match r.1 with
  | Except.ok _ => (Except.ok (), ⟨some r.2, r.2⟩)
  | Except.error e => (Except.error e, ⟨w.file, r.2⟩)

/-- Embedding of `ConnectionManager.load_connection` (lines 165-169):
re-read the file, then return the section's interpolated dict if the name
is a member (an interpolation error propagates), else `None`. -/
def load_connection (w : World) (name : String) :
    Except IniError (Option (List (String × String))) × World :=
  let m := readIn w
  ((if cfgMem m name then sectionDict m name else Except.ok Option.none),
    ⟨w.file, m⟩)

/-- Embedding of `ConnectionManager.delete_connection` (lines 171-177):
re-read the file; when the name is a member, call `remove_section`
(ignoring its boolean, and a no-op for `DEFAULT`), persist, and return
`True`; otherwise return `False`.  Nothing on this path raises. -/
def delete_connection (w : World) (name : String) : Bool × World :=
  let m := readIn w
  if cfgMem m name then
    (true, ⟨some (remove_section m name).1, (remove_section m name).1⟩)
  else (false, ⟨w.file, m⟩)

/-- Whether a string is free of percent signs, the values on which
`BasicInterpolation` is the identity (accepted by `before_set`, unchanged
by `before_get`). -/
def pct_free (s : String) : Bool :=
  !(s.data.any (fun c => decide (c = ('%'))))

theorem hawk_decide_self (a : String) : decide (a = a) = true := by simp

theorem hawk_decide_ne (a b : String) (h : ¬(a = b)) : decide (a = b) = false := by
  simp [h]

/-- Claim C5 counterexample: on the freshly auto-initialized store,
`get_connections` returns the auto-created example section
`Conexao_Exemplo` — a one-element list, not the empty sequence the claim
requires, and it does contain the reserved example section. -/
theorem hawk_c5_counterexample :
    (get_connections (initManager Option.none)).1 = [("Conexao_Exemplo")]
    ∧ ((get_connections (initManager Option.none)).1).length = 1 := by
  constructor <;> decide

/-- Claim C5 (amended): `get_connections` never lists the reserved
`DEFAULT` section; but the freshly auto-initialized store is not empty —
it lists exactly the auto-created example profile `Conexao_Exemplo` — and
an externally emptied backing file yields the empty sequence without
error. -/
theorem hawk_c5_amended :
    (∀ w : World,
        ((get_connections w).1).any (fun s => decide (s = ("DEFAULT"))) = false)
    ∧ (get_connections (initManager Option.none)).1 = [("Conexao_Exemplo")]
    ∧ (get_connections (initManager (some emptyConfig))).1 = [] := by
  refine ⟨?_, by decide, by decide⟩
  intro w
  apply Bool.eq_false_iff.mpr
  intro hany
  obtain ⟨x, hxmem, hx⟩ := List.any_eq_true.mp hany
  have hx2 : x = ("DEFAULT") := of_decide_eq_true hx
  obtain ⟨hmem, hpred⟩ := List.mem_filter.mp hxmem
  rw [hx2] at hpred
  simp at hpred

/-- Claim C10 counterexample: `delete_connection` applied to the reserved
name `DEFAULT` returns the boolean `True` — no exception is raised — and a
subsequent load still finds the (empty) `DEFAULT` section, so the claimed
exception-instead-of-boolean behaviour does not occur. -/
theorem hawk_c10_counterexample :
    ((delete_connection (initManager Option.none) ("DEFAULT")).1 = true)
    ∧ ((load_connection ((delete_connection (initManager Option.none)
        ("DEFAULT")).2) ("DEFAULT")).1 = Except.ok (some [])) := by
  constructor <;> rfl

/-- Claim C10 (amended): the parser membership test holds for `DEFAULT` in
every configuration state, so `delete_connection` on `DEFAULT` always takes
the removal path and returns `True`; but `remove_section` silently ignores
the default section — nothing is raised and the `DEFAULT` section's items
are untouched — so the reported success is misleading, not an exception. -/
theorem hawk_c10_delete_default :
    (∀ c : Config, cfgMem c ("DEFAULT") = true)
    ∧ (∀ w : World, (delete_connection w ("DEFAULT")).1 = true)
    ∧ (∀ w : World, ((delete_connection w ("DEFAULT")).2).mem.defaults
        = (readIn w).defaults) := by
  refine ⟨fun c => by simp [cfgMem], fun w => ?_, fun w => ?_⟩
  · simp [delete_connection, cfgMem]
  · simp [delete_connection, cfgMem, remove_section]

theorem hawk_map_fst_congr (l : List (String × List (String × String)))
    (u : String × List (String × String) → String × List (String × String))
    (hu : ∀ s, (u s).1 = s.1) :
    (l.map u).map Prod.fst = l.map Prod.fst := by
  induction l with
  | nil => rfl
  | cons a t ih => simp [hu, ih]

theorem hawk_mergeSects_cons
    (base : List (String × List (String × String)))
    (sec : String × List (String × String))
    (rest : List (String × List (String × String))) :
    mergeSects base (sec :: rest)
      = mergeSects
          (if base.any (fun s => decide (s.1 = sec.1)) then
            base.map (fun s =>
              if decide (s.1 = sec.1) then (s.1, updateAll s.2 sec.2) else s)
          else base ++ [sec]) rest := rfl

theorem hawk_mergeSects_sup_base :
    ∀ (f base : List (String × List (String × String))) (m : String),
      m ∈ base.map Prod.fst → m ∈ (mergeSects base f).map Prod.fst := by
  intro f
  induction f with
  | nil =>
      intro base m hm
      exact hm
  | cons sec rest ih =>
      intro base m hm
      rw [hawk_mergeSects_cons]
      apply ih
      by_cases hb : base.any (fun s => decide (s.1 = sec.1)) = true
      · rw [if_pos hb]
        rw [hawk_map_fst_congr]
        · exact hm
        · intro s
          by_cases hs : decide (s.1 = sec.1) = true
          · simp [hs]
          · simp [hs]
      · rw [if_neg hb]
        simp only [List.map_append, List.mem_append]
        exact Or.inl hm

theorem hawk_mergeSects_sup_file :
    ∀ (f base : List (String × List (String × String))) (m : String),
      m ∈ f.map Prod.fst → m ∈ (mergeSects base f).map Prod.fst := by
  intro f
  induction f with
  | nil =>
      intro base m hm
      simp at hm
  | cons sec rest ih =>
      intro base m hm
      rw [hawk_mergeSects_cons]
      rw [List.map_cons] at hm
      rcases List.mem_cons.mp hm with hm1 | hm2
      · apply hawk_mergeSects_sup_base
        by_cases hb : base.any (fun s => decide (s.1 = sec.1)) = true
        · rw [if_pos hb]
          rw [hawk_map_fst_congr]
          · obtain ⟨s, hsmem, hs⟩ := List.any_eq_true.mp hb
            have : s.1 = sec.1 := of_decide_eq_true hs
            rw [hm1, ← this]
            exact List.mem_map.mpr ⟨s, hsmem, rfl⟩
          · intro s
            by_cases hs : decide (s.1 = sec.1) = true
            · simp [hs]
            · simp [hs]
        · rw [if_neg hb]
          simp [hm1]
      · exact ih _ m hm2

/-- Claim C6 counterexample: a store constructed over an existing (empty)
backing file, whose file then gains profile `X` through an external edit,
loses `X` on the next `save_connection` — the persisted store afterwards
holds only the newly saved name, because `save_connection` writes the
stale in-memory state without re-reading. -/
theorem hawk_c6_counterexample :
    (((save_connection ⟨some ⟨[], [(("X"), exampleItems)]⟩, emptyConfig⟩
        ("Y") ("h") ("u") ("p")).2).file.getD emptyConfig).sects.map Prod.fst
      = [("Y")] := by
  decide

/-- Claim C6 (amended): `delete_connection` is read-modify-write — it
re-reads the persisted store before mutating, so every persisted profile
other than the deleted name (externally added ones included) survives —
but `save_connection` writes the in-memory copy without re-reading, so a
profile added to the backing file after the store's last read can be lost
by a successful save. -/
theorem hawk_c6_amended :
    (∀ (w : World) (n : String) (f : Config) (m : String),
        w.file = some f → m ∈ f.sects.map Prod.fst → m ≠ n →
        m ∈ (((delete_connection w n).2).file.getD emptyConfig).sects.map
          Prod.fst)
    ∧ (∃ (w : World) (n : String) (f : Config) (m : String),
        w.file = some f ∧ m ∈ f.sects.map Prod.fst ∧ m ≠ n
        ∧ ((save_connection w n ("h") ("u") ("p")).1 = Except.ok ())
        ∧ m ∉ ((((save_connection w n ("h") ("u") ("p")).2).file.getD
            emptyConfig).sects.map Prod.fst)) := by
  constructor
  · intro w n f m hf hm hne
    have hm2 : m ∈ (readIn w).sects.map Prod.fst := by
      simp only [readIn, hf, configMerge]
      exact hawk_mergeSects_sup_file f.sects w.mem.sects m hm
    simp only [delete_connection]
    by_cases hmem : cfgMem (readIn w) n = true
    · simp only [hmem, if_true, remove_section, Option.getD]
      obtain ⟨s, hsmem, hs1⟩ := List.mem_map.mp hm2
      apply List.mem_map.mpr
      refine ⟨s, List.mem_filter.mpr ⟨hsmem, ?_⟩, hs1⟩
      rw [hs1]
      simp [hawk_decide_ne m n hne]
    · simp only [hmem, if_false]
      simp [hf, hm]
  · refine ⟨⟨some ⟨[], [(("X"), exampleItems)]⟩, emptyConfig⟩, ("Y"),
      ⟨[], [(("X"), exampleItems)]⟩, ("X"), rfl, by decide, by decide,
      by rfl, by decide⟩

/-- Claim C6 witness: with a persisted file holding profiles `A` and `B`,
deleting `A` leaves `B` present in the persisted store. -/
theorem hawk_c6_witness :
    (("B") : String) ≠ ("A")
    ∧ ("B") ∈ (((delete_connection
        ⟨some ⟨[], [(("A"), exampleItems), (("B"), exampleItems)]⟩,
          emptyConfig⟩ ("A")).2).file.getD emptyConfig).sects.map Prod.fst := by
  refine ⟨by decide, hawk_c6_amended.1
    ⟨some ⟨[], [(("A"), exampleItems), (("B"), exampleItems)]⟩, emptyConfig⟩
    ("A") ⟨[], [(("A"), exampleItems), (("B"), exampleItems)]⟩ ("B")
    rfl (by decide) (by decide)⟩

theorem hawk_takeWhile_all_of {α : Type} (p : α → Bool) :
    ∀ l : List α, (∀ x ∈ l, p x = true) → l.takeWhile p = l := by
  intro l
  induction l with
  | nil => intro h; rfl
  | cons a t ih =>
      intro h
      simp only [List.takeWhile_cons, h a (List.mem_cons_self a t), if_true]
      rw [ih (fun x hx => h x (List.mem_cons_of_mem a hx))]

theorem hawk_pct_free_chars (v : String) (h : pct_free v = true) :
    ∀ c ∈ v.data, ¬(c = ('%')) := by
  intro c hc hcc
  have hany : v.data.any (fun c => decide (c = ('%'))) = true :=
    List.any_eq_true.mpr ⟨c, hc, by simp [hcc]⟩
  rw [pct_free, hany] at h
  simp at h

theorem hawk_strip_pp_no_pct :
    ∀ l : List Char, (∀ c ∈ l, ¬(c = ('%'))) → strip_pp l = l := by
  intro l
  induction l with
  | nil => intro h; rfl
  | cons c rest ih =>
      intro h
      have hc : ¬(c = ('%')) := h c (List.mem_cons_self c rest)
      cases rest with
      | nil => rfl
      | cons c2 rest2 =>
          simp only [strip_pp, if_neg hc]
          rw [ih (fun x hx => h x (List.mem_cons_of_mem c hx))]

theorem hawk_kcre_go_no_pct :
    ∀ (fuel : Nat) (l : List Char), l.length ≤ fuel →
      (∀ c ∈ l, ¬(c = ('%'))) → kcre_go fuel l = l := by
  intro fuel
  induction fuel with
  | zero =>
      intro l hl h
      cases l with
      | nil => rfl
      | cons c rest => simp at hl
  | succ f ih =>
      intro l hl h
      cases l with
      | nil => rfl
      | cons c rest =>
          have hc : ¬(c = ('%')) := h c (List.mem_cons_self c rest)
          have hlen : rest.length ≤ f := by
            simp only [List.length_cons] at hl
            omega
          simp only [kcre_go, if_neg hc]
          rw [ih rest hlen (fun x hx => h x (List.mem_cons_of_mem c hx))]

theorem hawk_before_set_pct_free (v : String) (h : pct_free v = true) :
    before_set_valid v = true := by
  have hv := hawk_pct_free_chars v h
  rw [before_set_valid, hawk_strip_pp_no_pct v.data hv, kcre_strip,
    hawk_kcre_go_no_pct v.data.length v.data (Nat.le_refl _) hv]
  exact h

theorem hawk_interp_loop_no_pct (map : List (String × String))
    (expand : List Char → Except IniError (List Char)) :
    ∀ (fuel : Nat) (l : List Char), l.length ≤ fuel →
      (∀ c ∈ l, ¬(c = ('%'))) →
      interp_loop map expand fuel l = Except.ok l := by
  intro fuel
  induction fuel with
  | zero =>
      intro l hl h
      cases l with
      | nil => rfl
      | cons c rest => simp at hl
  | succ f ih =>
      intro l hl h
      cases l with
      | nil => rfl
      | cons c rest =>
          have hc : ¬(c = ('%')) := h c (List.mem_cons_self c rest)
          have hlen : rest.length ≤ f := by
            simp only [List.length_cons] at hl
            omega
          simp only [interp_loop, if_neg hc]
          rw [ih rest hlen (fun x hx => h x (List.mem_cons_of_mem c hx))]

theorem hawk_before_get_no_pct (map : List (String × String)) (v : String)
    (h : pct_free v = true) : before_get map v = Except.ok v := by
  have hv := hawk_pct_free_chars v h
  rw [before_get, show (10 : Nat) = Nat.succ 9 from rfl, interp_outer,
    hawk_interp_loop_no_pct map (fun x => interp_outer map 9 x)
      v.data.length v.data (Nat.le_refl _) hv]

theorem hawk_interp_items_no_pct (map : List (String × String)) :
    ∀ items : List (String × String),
      (∀ kv ∈ items, pct_free kv.2 = true) →
      interp_items map items = Except.ok items := by
  intro items
  induction items with
  | nil => intro h; rfl
  | cons kv rest ih =>
      intro h
      simp only [interp_items,
        hawk_before_get_no_pct map kv.2 (h kv (List.mem_cons_self kv rest)),
        ih (fun x hx => h x (List.mem_cons_of_mem kv hx))]

theorem hawk_setChecked_ok (c : Config) (name : String)
    (items : List (String × String))
    (h : ∀ kv ∈ items, before_set_valid kv.2 = true) :
    setSectionChecked c name items = (Except.ok (), placeSection c name items) := by
  rw [setSectionChecked]
  rw [hawk_takeWhile_all_of (fun kv => before_set_valid kv.2) items h]
  simp

/-- Claim C7 counterexample: the claim's universal quantification fails at
the reserved name and at values carrying a bare percent sign.  After
saving under `DEFAULT`, deleting it returns `True` while removing nothing
(`remove_section` silently ignores the default section) and the subsequent
load still finds the saved items instead of `NotFound`; and saving a
password containing a bare `%` raises the `before_set` `ValueError`, so
save-then-load cannot return the saved triple. -/
theorem hawk_c7_counterexample :
    ((delete_connection ((save_connection (initManager Option.none)
        ("DEFAULT") ("h") ("u") ("p")).2) ("DEFAULT")).1 = true)
    ∧ ((load_connection ((delete_connection ((save_connection
        (initManager Option.none) ("DEFAULT") ("h") ("u") ("p")).2)
        ("DEFAULT")).2) ("DEFAULT")).1
      = Except.ok (some [(("host"), ("h")), (("user"), ("u")),
          (("password"), ("p"))]))
    ∧ ((save_connection (initManager Option.none) ("prod") ("h") ("u")
        ("100%")).1 = Except.error IniError.valueError) := by
  refine ⟨by rfl, by rfl, by rfl⟩

/-- Claim C7 (amended): for every name other than the reserved `DEFAULT`
section name, and all host/user/password values free of percent signs (so
that `BasicInterpolation` neither rejects them on save nor rewrites them
on load): saving then loading that name returns exactly the
`{host, user, password}` items last saved, and deleting that name then
loading it returns `None`. -/
theorem hawk_c7_amended :
    ∀ (file0 : Option Config) (name host user password : String),
      name ≠ ("DEFAULT") →
      pct_free host = true → pct_free user = true → pct_free password = true →
      ((save_connection (initManager file0) name host user password).1
        = Except.ok ())
      ∧ ((load_connection ((save_connection (initManager file0) name host
          user password).2) name).1
        = Except.ok (some [(("host"), host), (("user"), user),
            (("password"), password)]))
      ∧ ((load_connection ((delete_connection ((save_connection
          (initManager file0) name host user password).2) name).2) name).1
        = Except.ok Option.none) := by
  intro file0 name host user password hname hph hpu hpp
  have hdne : decide (name = ("DEFAULT")) = false := hawk_decide_ne _ _ hname
  have hvalid : ∀ kv ∈ [(("host"), host), (("user"), user),
      (("password"), password)], before_set_valid kv.2 = true := by
    intro kv hkv
    simp only [List.mem_cons, List.not_mem_nil, or_false] at hkv
    rcases hkv with rfl | rfl | rfl
    · exact hawk_before_set_pct_free host hph
    · exact hawk_before_set_pct_free user hpu
    · exact hawk_before_set_pct_free password hpp
  have hpct : ∀ kv ∈ [(("host"), host), (("user"), user),
      (("password"), password)], pct_free kv.2 = true := by
    intro kv hkv
    simp only [List.mem_cons, List.not_mem_nil, or_false] at hkv
    rcases hkv with rfl | rfl | rfl
    · exact hph
    · exact hpu
    · exact hpp
  have hitems : interp_items
      [(("host"), host), (("user"), user), (("password"), password)]
      [(("host"), host), (("user"), user), (("password"), password)]
      = Except.ok [(("host"), host), (("user"), user), (("password"), password)] :=
    hawk_interp_items_no_pct _ _ hpct
  have e1 : updateAll []
      [(("host"), host), (("user"), user), (("password"), password)]
      = [(("host"), host), (("user"), user), (("password"), password)] := rfl
  have e2 : updateAll
      [(("host"), host), (("user"), user), (("password"), password)]
      [(("host"), host), (("user"), user), (("password"), password)]
      = [(("host"), host), (("user"), user), (("password"), password)] := rfl
  have e3 : updateAll exampleItems exampleItems = exampleItems := rfl
  have e4 : updateAll ([] : List (String × String)) [] = [] := rfl
  cases file0 with
  | some f =>
      have hset := hawk_setChecked_ok emptyConfig name
        [(("host"), host), (("user"), user), (("password"), password)] hvalid
      have hplace : placeSection emptyConfig name
          [(("host"), host), (("user"), user), (("password"), password)]
          = ⟨[], [(name, [(("host"), host), (("user"), user),
              (("password"), password)])]⟩ := by
        simp [placeSection, emptyConfig, hdne]
      have hsave : save_connection (initManager (some f)) name host user password
          = (Except.ok (),
            ⟨some ⟨[], [(name, [(("host"), host), (("user"), user),
                (("password"), password)])]⟩,
              ⟨[], [(name, [(("host"), host), (("user"), user),
                (("password"), password)])]⟩⟩) := by
        simp [save_connection, initManager, hset, hplace]
      have hmerge : configMerge
          ⟨[], [(name, [(("host"), host), (("user"), user),
            (("password"), password)])]⟩
          ⟨[], [(name, [(("host"), host), (("user"), user),
            (("password"), password)])]⟩
          = ⟨[], [(name, [(("host"), host), (("user"), user),
            (("password"), password)])]⟩ := by
        simp [configMerge, mergeSects, hawk_decide_self, e2, e4]
      have hload1 : (load_connection
          ⟨some ⟨[], [(name, [(("host"), host), (("user"), user),
              (("password"), password)])]⟩,
            ⟨[], [(name, [(("host"), host), (("user"), user),
              (("password"), password)])]⟩⟩ name).1
          = Except.ok (some [(("host"), host), (("user"), user),
              (("password"), password)]) := by
        simp [load_connection, readIn, hmerge, cfgMem, sectionDict,
          List.find?, hdne, hawk_decide_self, e1, e2, e3, e4, hitems, hname]
      have hdel : (delete_connection
          ⟨some ⟨[], [(name, [(("host"), host), (("user"), user),
              (("password"), password)])]⟩,
            ⟨[], [(name, [(("host"), host), (("user"), user),
              (("password"), password)])]⟩⟩ name).2
          = ⟨some ⟨[], []⟩, ⟨[], []⟩⟩ := by
        simp [delete_connection, readIn, hmerge, cfgMem, remove_section,
          hdne, hawk_decide_self, e2, e3, e4, hname]
      have hload2 : (load_connection ⟨some ⟨[], []⟩, ⟨[], []⟩⟩ name).1
          = Except.ok Option.none := by
        simp [load_connection, readIn, configMerge, mergeSects, cfgMem,
          hdne, hname, e4]
      refine ⟨by rw [hsave], ?_, ?_⟩
      · rw [hsave]
        exact hload1
      · rw [hsave, hdel]
        exact hload2
  | none =>
      have hinit : initManager Option.none
          = ⟨some ⟨[], [(("Conexao_Exemplo"), exampleItems)]⟩,
              ⟨[], [(("Conexao_Exemplo"), exampleItems)]⟩⟩ := by rfl
      have hset := hawk_setChecked_ok
        ⟨[], [(("Conexao_Exemplo"), exampleItems)]⟩ name
        [(("host"), host), (("user"), user), (("password"), password)] hvalid
      by_cases hex : name = ("Conexao_Exemplo")
      · subst hex
        have hplace : placeSection
            ⟨[], [(("Conexao_Exemplo"), exampleItems)]⟩ ("Conexao_Exemplo")
            [(("host"), host), (("user"), user), (("password"), password)]
            = ⟨[], [(("Conexao_Exemplo"), [(("host"), host), (("user"), user),
                (("password"), password)])]⟩ := by
          simp [placeSection, hdne, hawk_decide_self]
        have hsave : save_connection (initManager Option.none)
            ("Conexao_Exemplo") host user password
            = (Except.ok (),
              ⟨some ⟨[], [(("Conexao_Exemplo"), [(("host"), host),
                  (("user"), user), (("password"), password)])]⟩,
                ⟨[], [(("Conexao_Exemplo"), [(("host"), host),
                  (("user"), user), (("password"), password)])]⟩⟩) := by
          rw [hinit]
          simp [save_connection, hset, hplace]
        have hmerge : configMerge
            ⟨[], [(("Conexao_Exemplo"), [(("host"), host), (("user"), user),
              (("password"), password)])]⟩
            ⟨[], [(("Conexao_Exemplo"), [(("host"), host), (("user"), user),
              (("password"), password)])]⟩
            = ⟨[], [(("Conexao_Exemplo"), [(("host"), host), (("user"), user),
              (("password"), password)])]⟩ := by
          simp [configMerge, mergeSects, hawk_decide_self, e2, e4]
        have hload1 : (load_connection
            ⟨some ⟨[], [(("Conexao_Exemplo"), [(("host"), host),
                (("user"), user), (("password"), password)])]⟩,
              ⟨[], [(("Conexao_Exemplo"), [(("host"), host),
                (("user"), user), (("password"), password)])]⟩⟩
            ("Conexao_Exemplo")).1
            = Except.ok (some [(("host"), host), (("user"), user),
                (("password"), password)]) := by
          simp [load_connection, readIn, hmerge, cfgMem, sectionDict,
            List.find?, hdne, hawk_decide_self, e1, e2, e3, e4, hitems,
            hname]
        have hdel : (delete_connection
            ⟨some ⟨[], [(("Conexao_Exemplo"), [(("host"), host),
                (("user"), user), (("password"), password)])]⟩,
              ⟨[], [(("Conexao_Exemplo"), [(("host"), host),
                (("user"), user), (("password"), password)])]⟩⟩
            ("Conexao_Exemplo")).2
            = ⟨some ⟨[], []⟩, ⟨[], []⟩⟩ := by
          simp [delete_connection, readIn, hmerge, cfgMem, remove_section,
            hdne, hawk_decide_self, e2, e3, e4, hname]
        have hload2 : (load_connection ⟨some ⟨[], []⟩, ⟨[], []⟩⟩
            ("Conexao_Exemplo")).1 = Except.ok Option.none := by
          simp [load_connection, readIn, configMerge, mergeSects, cfgMem,
            hdne, hname, e4]
        refine ⟨by rw [hsave], ?_, ?_⟩
        · rw [hsave]
          exact hload1
        · rw [hsave, hdel]
          exact hload2
      · have hexd : decide (("Conexao_Exemplo") = name) = false :=
          hawk_decide_ne _ _ (fun h => hex h.symm)
        have hexd2 : decide (name = ("Conexao_Exemplo")) = false :=
          hawk_decide_ne _ _ hex
        have hexs : ¬(("Conexao_Exemplo") = name) := fun h => hex h.symm
        have hplace : placeSection ⟨[], [(("Conexao_Exemplo"), exampleItems)]⟩
            name [(("host"), host), (("user"), user), (("password"), password)]
            = ⟨[], [(("Conexao_Exemplo"), exampleItems),
                (name, [(("host"), host), (("user"), user),
                  (("password"), password)])]⟩ := by
          simp [placeSection, hdne, hexd, hname, hex, hexs]
        have hsave : save_connection (initManager Option.none) name host user
            password
            = (Except.ok (),
              ⟨some ⟨[], [(("Conexao_Exemplo"), exampleItems),
                  (name, [(("host"), host), (("user"), user),
                    (("password"), password)])]⟩,
                ⟨[], [(("Conexao_Exemplo"), exampleItems),
                  (name, [(("host"), host), (("user"), user),
                    (("password"), password)])]⟩⟩) := by
          rw [hinit]
          simp [save_connection, hset, hplace]
        have hmerge : configMerge
            ⟨[], [(("Conexao_Exemplo"), exampleItems),
              (name, [(("host"), host), (("user"), user),
                (("password"), password)])]⟩
            ⟨[], [(("Conexao_Exemplo"), exampleItems),
              (name, [(("host"), host), (("user"), user),
                (("password"), password)])]⟩
            = ⟨[], [(("Conexao_Exemplo"), exampleItems),
              (name, [(("host"), host), (("user"), user),
                (("password"), password)])]⟩ := by
          simp [configMerge, mergeSects, hawk_decide_self, hexd, hexd2,
            hex, hexs, e2, e3, e4]
        have hload1 : (load_connection
            ⟨some ⟨[], [(("Conexao_Exemplo"), exampleItems),
                (name, [(("host"), host), (("user"), user),
                  (("password"), password)])]⟩,
              ⟨[], [(("Conexao_Exemplo"), exampleItems),
                (name, [(("host"), host), (("user"), user),
                  (("password"), password)])]⟩⟩ name).1
            = Except.ok (some [(("host"), host), (("user"), user),
                (("password"), password)]) := by
          simp [load_connection, readIn, hmerge, cfgMem, sectionDict,
            List.find?, hdne, hexd, hexd2, hex, hexs, hname,
            hawk_decide_self, e1, e2, e3, e4, hitems]
        have hdel : (delete_connection
            ⟨some ⟨[], [(("Conexao_Exemplo"), exampleItems),
                (name, [(("host"), host), (("user"), user),
                  (("password"), password)])]⟩,
              ⟨[], [(("Conexao_Exemplo"), exampleItems),
                (name, [(("host"), host), (("user"), user),
                  (("password"), password)])]⟩⟩ name).2
            = ⟨some ⟨[], [(("Conexao_Exemplo"), exampleItems)]⟩,
                ⟨[], [(("Conexao_Exemplo"), exampleItems)]⟩⟩ := by
          simp [delete_connection, readIn, hmerge, cfgMem, remove_section,
            hdne, hexd, hexd2, hex, hexs, hname, hawk_decide_self,
            e2, e3, e4]
        have hmerge2 : configMerge
            ⟨[], [(("Conexao_Exemplo"), exampleItems)]⟩
            ⟨[], [(("Conexao_Exemplo"), exampleItems)]⟩
            = ⟨[], [(("Conexao_Exemplo"), exampleItems)]⟩ := by rfl
        have hload2 : (load_connection
            ⟨some ⟨[], [(("Conexao_Exemplo"), exampleItems)]⟩,
              ⟨[], [(("Conexao_Exemplo"), exampleItems)]⟩⟩ name).1
            = Except.ok Option.none := by
          simp [load_connection, readIn, hmerge2, cfgMem, hdne, hexd,
            hexd2, hex, hexs, hname]
        refine ⟨by rw [hsave], ?_, ?_⟩
        · rw [hsave]
          exact hload1
        · rw [hsave, hdel]
          exact hload2

/-- Claim C7 witness: saving the profile `prod` with percent-free values,
then loading it, returns exactly the saved items; deleting `prod` then
loading it returns `None`. -/
theorem hawk_c7_witness :
    ((("prod") : String) ≠ ("DEFAULT"))
    ∧ (pct_free ("h1") = true)
    ∧ ((save_connection (initManager Option.none) ("prod") ("h1") ("u1")
        ("p1")).1 = Except.ok ())
    ∧ ((load_connection ((save_connection (initManager Option.none) ("prod")
        ("h1") ("u1") ("p1")).2) ("prod")).1
      = Except.ok (some [(("host"), ("h1")), (("user"), ("u1")),
          (("password"), ("p1"))]))
    ∧ ((load_connection ((delete_connection ((save_connection
        (initManager Option.none) ("prod") ("h1") ("u1") ("p1")).2)
        ("prod")).2) ("prod")).1 = Except.ok Option.none) := by
  have h := hawk_c7_amended Option.none ("prod") ("h1") ("u1") ("p1")
    (by decide) (by decide) (by decide) (by decide)
  exact ⟨by decide, by decide, h.1, h.2.1, h.2.2⟩

end HawkDB
